import Mathlib

/-!
Shallow embedding of the collaborative presence and layout-replay engine of
the repository (collaborators panel, follow state, layout restorer closure
and the global-awareness layout publisher), with theorems settling the
frozen claims about it.
-/

set_option maxHeartbeats 1000000

namespace RTC

/-- A collaborator identity as published in the awareness state: the fields
the panel and plugin code read (`user.name`, `user.displayName`,
`user.color`, `user.initials`). -/
structure User where
  name : String
  displayName : String
  color : String
  initials : String
  deriving DecidableEq, Repr

/-- Metadata stored per open widget in the state database and sent to the
`docmanager:open` command: in the source, `value` is like
`(path: Untitled.ipynb, factory: Notebook)`. -/
structure OpenDoc where
  path : String
  factory : String
  deriving DecidableEq, Repr

/-- The `main` area of the serialized layout-restorer data:
`data[layout-restorer:data].main` with its optional `current` field and
optional `dock.widgets` list (the open widgets in order). Fields the
publisher reads; absent fields model `undefined`. -/
structure MainArea where
  current : Option String
  dockWidgets : Option (List String)
  deriving DecidableEq, Repr

/-- The serialized restorer data blob `data[layout-restorer:data]`: the
publisher reads its `main` part and also passes the whole blob through as
the layout's `restorer` field; `blob` stands for the rest of the opaque
serialized content, passed through unmodified. -/
structure RestorerData where
  main : Option MainArea
  blob : String
  deriving DecidableEq, Repr

/-- The `ICollaboratorLayout` record published into the local awareness
entry and consumed by the follower. `openDocs` is modelled as an ordered
association list, matching the insertion order that `Object.entries`
iterates for the string keys used here; `restorer` is optional because the
source builds it as `data[layout-restorer:data]` with no fallback. -/
structure ICollaboratorLayout where
  current : String
  restorer : Option RestorerData
  dockPanelMode : String
  openDocs : List (String × OpenDoc)
  uuid : String
  deriving DecidableEq, Repr

/-- One entry of the awareness state map (`ICollaboratorAwareness`). The
`user` field is optional: the shared channel may transiently contain
entries that have not yet published an identity, in which case the
JavaScript code would read a property of `undefined`. `layout` is optional
because the code guards it with a truthiness check. -/
structure ICollaboratorAwareness where
  user : Option User
  layout : Option ICollaboratorLayout
  deriving DecidableEq, Repr

/-- An externally observable call issued by the replay engine: either a
`docmanager:open` command execution carrying the document metadata, or the
final geometry application (`restorer.layoutFromJSON` fed into
`shell.restoreLayout`), carrying the dock panel mode and the raw restorer
blob that is converted. -/
inductive Call where
  | openDoc : OpenDoc → Call
  | applyLayout : String → Option RestorerData → Call
  deriving DecidableEq, Repr

/-- The `layoutRestorer` closure of `rtcPanelPlugin.activate`
(part_000 lines 385-411). It captures the mutable `lastLayoutUUID`; here
the state is passed and returned explicitly, together with the list of
external calls issued, in order. If the incoming uuid differs from
`lastLayoutUUID`, every `openDocs` entry is opened in order; then, when
`openDocs[current]` resolves, the current document is opened again, the
geometry is applied, and `lastLayoutUUID` is set to the incoming uuid.
When `current` does not resolve, neither geometry application nor the
uuid update happens. -/
def layoutRestorer (lastLayoutUUID : String)
    (collaboratorLayout : ICollaboratorLayout) : String × List Call :=
  if lastLayoutUUID ≠ collaboratorLayout.uuid then
    let opens := collaboratorLayout.openDocs.map fun kv => Call.openDoc kv.2
    match collaboratorLayout.openDocs.lookup collaboratorLayout.current with
    | some currentDoc =>
        (collaboratorLayout.uuid,
          opens ++ [Call.openDoc currentDoc,
            Call.applyLayout collaboratorLayout.dockPanelMode
              collaboratorLayout.restorer])
    | none => (lastLayoutUUID, opens)
  else
    (lastLayoutUUID, [])

/-- Result of one `_onAwarenessChanged` reaction: the roster accumulated so
far, the (possibly updated) `lastLayoutUUID`, the replay calls issued, and
whether the handler aborted with a thrown TypeError (reading `user.name`
of an entry whose `user` is undefined). When `errored` is set, the calls
already issued before the throw are still recorded, but the roster is
never assigned to the body. -/
structure AwarenessResult where
  collaborators : List ICollaboratorAwareness
  lastLayoutUUID : String
  calls : List Call
  errored : Option String
  deriving DecidableEq, Repr

/-- The layout-handling lines 74-78 of `_onAwarenessChanged` for one entry
with user `u`: when the entry has a layout and the user name equals the
followed name while the local name differs from the followed name, the
layout is handed to `layoutRestorer`; otherwise nothing happens. -/
def restoreStep (localName followingUser last : String)
    (v : ICollaboratorAwareness) (u : User) : String × List Call :=
  match v.layout with
  | some l =>
    if u.name = followingUser ∧ localName ≠ followingUser then
      layoutRestorer last l
    else (last, [])
  | none => (last, [])

/-- The body of the `state.forEach` loop in
`CollaboratorsPanel._onAwarenessChanged` (part_000 lines 69-79), iterated
over the remaining entries with explicit accumulators. Each entry is
pushed onto the roster when its user name differs from the local name, and
its layout is handed to `restoreStep`. An entry without a `user` field
aborts the loop with a TypeError, as the JavaScript property access
would. -/
def processEntries (localName followingUser : String) :
    List ICollaboratorAwareness → List ICollaboratorAwareness → String →
    List Call → AwarenessResult
  | [], collabs, last, calls => ⟨collabs, last, calls, none⟩
  | v :: rest, collabs, last, calls =>
    match v.user with
    | none => ⟨collabs, last, calls, some "TypeError: cannot read name of undefined"⟩
    | some u =>
      processEntries localName followingUser rest
        (if u.name ≠ localName then collabs ++ [v] else collabs)
        (restoreStep localName followingUser last v u).1
        (calls ++ (restoreStep localName followingUser last v u).2)

/-- The `_onAwarenessChanged` handler (part_000 lines 65-82): walks the
awareness state map in iteration order starting from an empty roster and
no calls, with the captured `lastLayoutUUID` passed in explicitly. -/
def onAwarenessChanged (localName followingUser lastLayoutUUID : String)
    (state : List ICollaboratorAwareness) : AwarenessResult :=
  processEntries localName followingUser state [] lastLayoutUUID []

/-- Predicate for the roster filter of `_onAwarenessChanged` line 70: an
entry is kept when its user name differs from the local user name. Entries
without a user never survive to the roster of a non-errored run. -/
def isRemote (localName : String) (v : ICollaboratorAwareness) : Bool :=
  match v.user with
  | some u => u.name != localName
  | none => false

/-- The follow-relevant mutable state of the system: `followingUser` lives
in `CollaboratorsBody`, `lastLayoutUUID` in the `rtcPanelPlugin.activate`
closure. -/
structure FollowSystemState where
  followingUser : String
  lastLayoutUUID : String
  deriving DecidableEq, Repr

/-- The `onFollowClick` handler (part_000 lines 141-143): assigns the
clicked collaborator name to `followingUser` via the setter, which only
stores the name and triggers a re-render; `lastLayoutUUID` is untouched. -/
def startFollow (s : FollowSystemState) (name : String) : FollowSystemState :=
  ⟨name, s.lastLayoutUUID⟩

/-- The `onUnfollowClick` handler (part_000 lines 145-147): assigns the
empty string to `followingUser`; `lastLayoutUUID` is untouched. -/
def stopFollow (s : FollowSystemState) : FollowSystemState :=
  ⟨"", s.lastLayoutUUID⟩

/-- JavaScript `String.prototype.split` with a single-character separator,
over the character list: splits into the (possibly empty) groups between
separator occurrences. -/
def splitAux (sep : Char) : List Char → List (List Char)
  | [] => [[]]
  | c :: cs =>
    if c = sep then [] :: splitAux sep cs
    else
      match splitAux sep cs with
      | [] => [[c]]
      | g :: gs => (c :: g) :: gs

/-- JavaScript `s.split(sep)` for a one-character separator, as used by
`value.layout.current.split(c)` in `CollaboratorsBody.render`. -/
def jsSplit (sep : Char) (s : String) : List String :=
  (splitAux sep s.data).map String.mk

/-- The click target computed by `CollaboratorsBody.render`
(part_000 lines 119-139): `none` when the collaborator is not clickable
(no layout or empty `current`), otherwise `some t` where `t` is the value
`current.split(c)[1]` passed to the file opener — itself an `Option`
because index 1 may not exist (JavaScript `undefined`). -/
def clickOpenTarget (value : ICollaboratorAwareness) : Option (Option String) :=
  match value.layout with
  | some l =>
    if l.current = "" then none
    else some ((jsSplit ':' l.current).get? 1)
  | none => none

/-- The state-database snapshot the layout publisher reads
(`state.toJSON()` in `rtcGlobalAwarenessPlugin.activate`):
the `layout-restorer:data` record, when present, and the per-widget
entries `data[widget]`, each carrying its `data` metadata record. -/
structure StateData where
  layoutRestorerData : Option RestorerData
  entries : List (String × OpenDoc)
  deriving DecidableEq, Repr

/-- The dock widget list the publisher reads:
`data[layout-restorer:data]?.main?.dock?.widgets || []`. -/
def dockWidgets (data : StateData) : List String :=
  ((data.layoutRestorerData.bind fun r => r.main).bind fun m => m.dockWidgets).getD []

/-- The `state.changed` handler of `rtcGlobalAwarenessPlugin.activate`
(part_000 lines 321-345): builds the `ICollaboratorLayout` to publish.
`current` is `data[layout-restorer:data]?.main?.current || empty`; the
open-docs map collects, over the dock widget list in order, each widget
that has a state-database entry, paired with that entry's `data` record;
the freshly generated `UUID.uuid4()` enters as the `freshUuid` argument;
`mode` is `shell.mode`. -/
def buildCollaboratorLayout (data : StateData) (mode : String)
    (freshUuid : String) : ICollaboratorLayout :=
  let current :=
    (((data.layoutRestorerData.bind fun r => r.main).bind fun m => m.current).getD "")
  let openDocs :=
    (dockWidgets data).filterMap fun w => (data.entries.lookup w).map fun d => (w, d)
  { current := current
    restorer := data.layoutRestorerData
    dockPanelMode := mode
    openDocs := openDocs
    uuid := freshUuid }

/-! Concrete sample values used by witnesses and counterexamples. -/

/-- A sample open-document metadata record. -/
def sampleDoc : OpenDoc := ⟨"a.ipynb", "Notebook"⟩

/-- A second sample open-document metadata record. -/
def sampleDoc2 : OpenDoc := ⟨"b.ipynb", "Notebook"⟩

/-- A layout whose `current` key does not occur in `openDocs` (the
malformed scenario of the specification). -/
def layoutUnresolved : ICollaboratorLayout :=
  ⟨"missing", none, "multiple-document", [("k9", sampleDoc)], "t1"⟩

/-- A well-formed layout whose `current` key resolves in `openDocs`. -/
def layoutResolved : ICollaboratorLayout :=
  ⟨"k2", none, "multiple-document", [("k1", sampleDoc), ("k2", sampleDoc2)], "t1"⟩

/-- A sample remote collaborator identity. -/
def userB : User := ⟨"B", "B", "red", "B"⟩

/-- An awareness entry for collaborator B carrying `layoutResolved`. -/
def peerB : ICollaboratorAwareness := ⟨some userB, some layoutResolved⟩

/-- An awareness entry whose published user name is the empty string. -/
def peerEmptyName : ICollaboratorAwareness :=
  ⟨some ⟨"", "", "blue", ""⟩, some layoutResolved⟩

/-- A partially-initialized awareness entry with no user field. -/
def peerNoUser : ICollaboratorAwareness := ⟨none, none⟩

/-- A state-database snapshot with two dock widgets of which only the
first has a per-widget entry. -/
def sampleStateData : StateData :=
  ⟨some ⟨some ⟨some "w1", some ["w1", "w2"]⟩, "blob"⟩, [("w1", sampleDoc)]⟩

/-! Helper lemmas about the replay engine. -/

/-- When the incoming uuid equals the recorded one, the restorer does
nothing. -/
theorem layoutRestorer_same_uuid (last : String) (cl : ICollaboratorLayout)
    (h : last = cl.uuid) : layoutRestorer last cl = (last, []) := by
  simp [layoutRestorer, h]

/-- When the uuid is new and `current` resolves, the restorer opens all
documents in order, re-opens the current one, applies the geometry and
records the uuid. -/
theorem layoutRestorer_resolved (last : String) (cl : ICollaboratorLayout)
    (d : OpenDoc) (h : last ≠ cl.uuid)
    (hd : cl.openDocs.lookup cl.current = some d) :
    layoutRestorer last cl =
      (cl.uuid,
        (cl.openDocs.map fun kv => Call.openDoc kv.2)
          ++ [Call.openDoc d, Call.applyLayout cl.dockPanelMode cl.restorer]) := by
  simp [layoutRestorer, h, hd]

/-- When the uuid is new but `current` does not resolve, the restorer only
opens the documents and leaves the recorded uuid unchanged. -/
theorem layoutRestorer_unresolved (last : String) (cl : ICollaboratorLayout)
    (h : last ≠ cl.uuid) (hd : cl.openDocs.lookup cl.current = none) :
    layoutRestorer last cl =
      (last, cl.openDocs.map fun kv => Call.openDoc kv.2) := by
  simp [layoutRestorer, h, hd]

/-! Claim C1. -/

/-- Claim C1, counterexample: with `lastLayoutUUID` initially empty and a
layout whose `current` does not resolve, a second invocation with the same
uuid issues open calls again, so replaying twice is not free of additional
calls. -/
theorem C1_counterexample :
    (layoutRestorer (layoutRestorer "" layoutUnresolved).1 layoutUnresolved).2 ≠ [] := by
  decide

/-- Claim C1 (amended): replaying the same layout twice produces no
additional open or apply calls beyond the first invocation, provided the
layout's `current` key resolves in `openDocs` (only then is the uuid
recorded as applied; an unresolved `current` leaves the uuid unrecorded
and a second invocation re-issues the open calls). -/
theorem C1_idempotent_when_applied (last : String) (cl : ICollaboratorLayout)
    (d : OpenDoc) (hd : cl.openDocs.lookup cl.current = some d) :
    (layoutRestorer (layoutRestorer last cl).1 cl).2 = [] := by
  by_cases h : last = cl.uuid
  · rw [layoutRestorer_same_uuid last cl h]
    simp [layoutRestorer_same_uuid last cl h]
  · rw [layoutRestorer_resolved last cl d h hd]
    simp [layoutRestorer_same_uuid cl.uuid cl rfl]

/-- Claim C1, witness for the amended theorem at a concrete layout. -/
theorem C1_witness :
    (layoutRestorer (layoutRestorer "" layoutResolved).1 layoutResolved).2 = [] :=
  C1_idempotent_when_applied "" layoutResolved sampleDoc2 (by decide)

/-! Claim C2. -/

/-- Claim C2: when a layout with a new uuid is replayed, the call sequence
begins with one open call per `openDocs` entry in exactly the recorded
order, and when `current` resolves the sequence is exactly those opens
followed by one focus-open call for the current entry and then a single
apply-layout call. -/
theorem C2_replay_ordering (last : String) (cl : ICollaboratorLayout)
    (h : last ≠ cl.uuid) :
    ((layoutRestorer last cl).2.take cl.openDocs.length
        = cl.openDocs.map fun kv => Call.openDoc kv.2)
    ∧ ∀ d, cl.openDocs.lookup cl.current = some d →
        (layoutRestorer last cl).2
          = (cl.openDocs.map fun kv => Call.openDoc kv.2)
            ++ [Call.openDoc d, Call.applyLayout cl.dockPanelMode cl.restorer] := by
  cases hl : cl.openDocs.lookup cl.current with
  | none =>
    rw [layoutRestorer_unresolved last cl h hl]
    constructor
    · simp
    · intro d hd
      exact Option.noConfusion hd
  | some d0 =>
    rw [layoutRestorer_resolved last cl d0 h hl]
    constructor
    · exact List.take_left' (by simp)
    · intro d hd
      injection hd with h2
      rw [← h2]

/-- Claim C2, witness at a concrete layout with two entries. -/
theorem C2_witness :
    ((layoutRestorer "" layoutResolved).2.take layoutResolved.openDocs.length
        = layoutResolved.openDocs.map fun kv => Call.openDoc kv.2)
    ∧ (layoutRestorer "" layoutResolved).2
        = (layoutResolved.openDocs.map fun kv => Call.openDoc kv.2)
          ++ [Call.openDoc sampleDoc2,
              Call.applyLayout layoutResolved.dockPanelMode layoutResolved.restorer] :=
  ⟨(C2_replay_ordering "" layoutResolved (by decide)).1,
   (C2_replay_ordering "" layoutResolved (by decide)).2 sampleDoc2 (by decide)⟩

/-! Claim C3. -/

/-- Claim C3: when a replayed layout's `current` key does not resolve, the
engine issues exactly one open call per `openDocs` entry, no focus-open
and no apply-layout call, and leaves the recorded uuid unchanged; and the
recorded uuid only ever changes when `current` did resolve. -/
theorem C3_unresolved_current (last : String) (cl : ICollaboratorLayout) :
    (cl.openDocs.lookup cl.current = none → last ≠ cl.uuid →
      (layoutRestorer last cl).2 = (cl.openDocs.map fun kv => Call.openDoc kv.2)
      ∧ (layoutRestorer last cl).1 = last
      ∧ ∀ m r, Call.applyLayout m r ∉ (layoutRestorer last cl).2)
    ∧ ((layoutRestorer last cl).1 ≠ last →
        cl.openDocs.lookup cl.current ≠ none) := by
  constructor
  · intro hl h
    rw [layoutRestorer_unresolved last cl h hl]
    refine ⟨rfl, rfl, ?_⟩
    intro m r hmem
    rcases List.mem_map.1 hmem with ⟨kv, _, hkv⟩
    exact Call.noConfusion hkv
  · intro hne
    by_cases h : last = cl.uuid
    · rw [layoutRestorer_same_uuid last cl h] at hne
      exact absurd rfl hne
    · cases hl : cl.openDocs.lookup cl.current with
      | none =>
        rw [layoutRestorer_unresolved last cl h hl] at hne
        exact absurd rfl hne
      | some d => simp [hl]

/-- Claim C3, witness at the malformed concrete layout. -/
theorem C3_witness :
    (layoutRestorer "" layoutUnresolved).2
        = (layoutUnresolved.openDocs.map fun kv => Call.openDoc kv.2)
      ∧ (layoutRestorer "" layoutUnresolved).1 = ""
      ∧ ∀ m r, Call.applyLayout m r ∉ (layoutRestorer "" layoutUnresolved).2 :=
  (C3_unresolved_current "" layoutUnresolved).1 (by decide) (by decide)

/-! Helper lemmas about the awareness-change handler. -/

/-- When the follow gate is false for an entry, its restore step does
nothing. -/
theorem restoreStep_no_gate (localName followingUser last : String)
    (v : ICollaboratorAwareness) (u : User)
    (hg : ¬(u.name = followingUser ∧ localName ≠ followingUser)) :
    restoreStep localName followingUser last v u = (last, []) := by
  cases hlay : v.layout with
  | none => simp [restoreStep, hlay]
  | some l => simp [restoreStep, hlay, if_neg hg]

/-- When no entry of the list passes the follow gate, processing issues no
call and leaves the recorded uuid unchanged. -/
theorem processEntries_no_restore (localName followingUser : String) :
    ∀ (l : List ICollaboratorAwareness) collabs last calls,
      (∀ v ∈ l, ∀ u, v.user = some u →
        ¬(u.name = followingUser ∧ localName ≠ followingUser)) →
      (processEntries localName followingUser l collabs last calls).lastLayoutUUID = last
      ∧ (processEntries localName followingUser l collabs last calls).calls = calls := by
  intro l
  induction l with
  | nil => intro collabs last calls _; exact ⟨rfl, rfl⟩
  | cons v rest ih =>
    intro collabs last calls hgate
    cases hu : v.user with
    | none => simp [processEntries, hu]
    | some u =>
      have hg := hgate v (List.mem_cons_self v rest) u hu
      have hih := ih (if u.name ≠ localName then collabs ++ [v] else collabs)
        last calls (fun w hw => hgate w (List.mem_cons_of_mem v hw))
      simpa [processEntries, hu,
        restoreStep_no_gate localName followingUser last v u hg] using hih

/-- When processing ends without a TypeError, the roster is the input
roster extended by exactly the entries whose user name differs from the
local name, in order. -/
theorem processEntries_roster (localName followingUser : String) :
    ∀ (l : List ICollaboratorAwareness) collabs last calls,
      (processEntries localName followingUser l collabs last calls).errored = none →
      (processEntries localName followingUser l collabs last calls).collaborators
        = collabs ++ l.filter (isRemote localName) := by
  intro l
  induction l with
  | nil => intro collabs last calls _; simp [processEntries]
  | cons v rest ih =>
    intro collabs last calls h
    cases hu : v.user with
    | none => simp [processEntries, hu] at h
    | some u =>
      simp only [processEntries, hu] at h ⊢
      rw [ih _ _ _ h]
      by_cases hn : u.name = localName
      · simp [List.filter_cons, isRemote, hu, hn]
      · simp [List.filter_cons, isRemote, hu, hn]

/-- A state containing an entry without a user field always makes the
handler abort with a TypeError. -/
theorem processEntries_missing_user (localName followingUser : String) :
    ∀ (l : List ICollaboratorAwareness) collabs last calls,
      (∃ v ∈ l, v.user = none) →
      (processEntries localName followingUser l collabs last calls).errored ≠ none := by
  intro l
  induction l with
  | nil =>
    intro _ _ _ h
    rcases h with ⟨v, hv, _⟩
    exact absurd hv (List.not_mem_nil v)
  | cons v rest ih =>
    intro collabs last calls h
    cases hu : v.user with
    | none => simp [processEntries, hu]
    | some u =>
      rcases h with ⟨w, hw, hwu⟩
      rcases List.mem_cons.1 hw with hweq | hwrest
      · rw [hweq, hu] at hwu
        exact Option.noConfusion hwu
      · simp only [processEntries, hu]
        exact ih _ _ _ ⟨w, hwrest, hwu⟩

/-! Claim C4. -/

/-- Claim C4: on a change notification that completes without error, the
computed roster is exactly the entries of the awareness map whose user
name differs from the local name, in map order; in particular no roster
entry carries the local name. -/
theorem C4_roster_exact (localName followingUser last : String)
    (state : List ICollaboratorAwareness)
    (h : (onAwarenessChanged localName followingUser last state).errored = none) :
    (onAwarenessChanged localName followingUser last state).collaborators
        = state.filter (isRemote localName)
    ∧ ∀ v ∈ (onAwarenessChanged localName followingUser last state).collaborators,
        ∀ u, v.user = some u → u.name ≠ localName := by
  have h1 := processEntries_roster localName followingUser state [] last [] h
  have h2 : (onAwarenessChanged localName followingUser last state).collaborators
      = state.filter (isRemote localName) := by
    simpa [onAwarenessChanged] using h1
  refine ⟨h2, ?_⟩
  intro v hv u hu
  rw [h2] at hv
  have hkeep := List.of_mem_filter hv
  simpa [isRemote, hu] using hkeep

/-- Claim C4, witness: a single remote collaborator survives the filter. -/
theorem C4_witness :
    (onAwarenessChanged "alice" "" "" [peerB]).collaborators = [peerB] :=
  ((C4_roster_exact "alice" "" "" [peerB] (by decide)).1).trans (by decide)

/-! Claim C5. -/

/-- Claim C5, counterexample: after following A with token t1 applied,
switching to B (whose current layout carries the same token t1) leaves the
bookkeeping at t1 and the change notification issues no call at all, so
the new target's layout is not replayed even once. -/
theorem C5_counterexample :
    (startFollow ⟨"A", "t1"⟩ "B").lastLayoutUUID = "t1"
    ∧ (onAwarenessChanged "alice" (startFollow ⟨"A", "t1"⟩ "B").followingUser
        (startFollow ⟨"A", "t1"⟩ "B").lastLayoutUUID [peerB]).calls = [] :=
  ⟨rfl, by decide⟩

/-- Claim C5 (amended): a follow switch does not reset the freshness
bookkeeping: `startFollow` changes only the followed name and leaves
`lastLayoutUUID` unchanged, and a layout whose freshness token equals the
last-applied token is not replayed for the new target (the token
comparison is global, not scoped per follow target). -/
theorem C5_no_reset_on_switch :
    (∀ (s : FollowSystemState) (name : String),
      (startFollow s name).lastLayoutUUID = s.lastLayoutUUID
      ∧ (startFollow s name).followingUser = name)
    ∧ ∀ (last : String) (cl : ICollaboratorLayout), cl.uuid = last →
        layoutRestorer last cl = (last, []) := by
  refine ⟨fun s name => ⟨rfl, rfl⟩, fun last cl h => ?_⟩
  exact layoutRestorer_same_uuid last cl h.symm

/-- Claim C5, witness for the amended theorem at the switch scenario. -/
theorem C5_witness :
    (startFollow ⟨"A", "t1"⟩ "B").lastLayoutUUID = "t1"
    ∧ layoutRestorer "t1" layoutResolved = ("t1", []) :=
  ⟨(C5_no_reset_on_switch.1 ⟨"A", "t1"⟩ "B").1,
   C5_no_reset_on_switch.2 "t1" layoutResolved rfl⟩

/-! Claim C6. -/

/-- Claim C6: when the followed name equals the local name (self-follow),
a change notification hands no layout to the replay engine: no call is
issued and the recorded uuid is unchanged, whatever the state contains. -/
theorem C6_self_follow_noop (localName followingUser last : String)
    (state : List ICollaboratorAwareness) (h : followingUser = localName) :
    (onAwarenessChanged localName followingUser last state).calls = []
    ∧ (onAwarenessChanged localName followingUser last state).lastLayoutUUID = last := by
  have hres := processEntries_no_restore localName followingUser state [] last []
    (fun v _ u _ hc => hc.2 h.symm)
  exact ⟨hres.2, hres.1⟩

/-- Claim C6, witness: user B self-following while B publishes a fresh
layout triggers nothing. -/
theorem C6_witness :
    (onAwarenessChanged "B" "B" "" [peerB]).calls = []
    ∧ (onAwarenessChanged "B" "B" "" [peerB]).lastLayoutUUID = "" :=
  C6_self_follow_noop "B" "B" "" [peerB] rfl

/-! Claim C7. -/

/-- Claim C7, counterexample: a state whose only entry lacks a user field
makes the change handler abort with a TypeError instead of skipping the
entry, so the roster computation is not total. -/
theorem C7_counterexample :
    (onAwarenessChanged "alice" "" "" [peerNoUser]).errored ≠ none := by
  decide

/-- Claim C7 (amended): an entry lacking a recognizable user field is not
skipped: reading the missing identity throws a TypeError, so any state
containing such an entry makes the change handler abort with an error
rather than complete the roster computation. -/
theorem C7_missing_user_errors (localName followingUser last : String)
    (state : List ICollaboratorAwareness) (h : ∃ v ∈ state, v.user = none) :
    (onAwarenessChanged localName followingUser last state).errored ≠ none :=
  processEntries_missing_user localName followingUser state [] last [] h

/-- Claim C7, witness: a well-formed entry followed by a partially
initialized one still aborts the handler. -/
theorem C7_witness :
    (onAwarenessChanged "alice" "" "" [peerB, peerNoUser]).errored ≠ none :=
  C7_missing_user_errors "alice" "" "" [peerB, peerNoUser]
    ⟨peerNoUser, by decide, rfl⟩

/-! Claim C9. -/

/-- Claim C9, counterexample: with the follow state idle (followed name
empty, as after `stopFollow`), a peer whose published user name is the
empty string and who publishes a fresh layout still triggers a replay,
because the idle sentinel is compared against entry names. -/
theorem C9_counterexample :
    (onAwarenessChanged "alice" (stopFollow ⟨"B", "x"⟩).followingUser ""
      [peerEmptyName]).calls ≠ [] := by
  decide

/-- Claim C9 (amended): with the follow state idle (followed name empty,
as after `stopFollow`), no change notification triggers a replay, provided
every entry's published user name is nonempty — an entry whose name is the
empty string would match the idle sentinel and be replayed. -/
theorem C9_idle_no_replay (localName last : String) (s : FollowSystemState)
    (state : List ICollaboratorAwareness)
    (hnames : ∀ v ∈ state, ∀ u, v.user = some u → u.name ≠ "") :
    (onAwarenessChanged localName (stopFollow s).followingUser last state).calls = []
    ∧ (onAwarenessChanged localName (stopFollow s).followingUser last
        state).lastLayoutUUID = last := by
  have hres := processEntries_no_restore localName "" state [] last []
    (fun v hv u hu hc => hnames v hv u hu hc.1)
  exact ⟨hres.2, hres.1⟩

/-- Claim C9, witness: after unfollowing, B republishing a layout with a
new token causes no replay. -/
theorem C9_witness :
    (onAwarenessChanged "alice" (stopFollow ⟨"B", "x"⟩).followingUser "t9"
      [peerB]).calls = []
    ∧ (onAwarenessChanged "alice" (stopFollow ⟨"B", "x"⟩).followingUser "t9"
        [peerB]).lastLayoutUUID = "t9" :=
  C9_idle_no_replay "alice" "t9" ⟨"B", "x"⟩ [peerB] (by decide)

/-! Claim C8. -/

/-- Claim C8: the published layout carries exactly the freshly generated
token, and its open-docs map consists of exactly the dock widgets of the
local workspace that have a state-database record, in dock order, each
paired with that record's path and factory metadata. -/
theorem C8_publisher (data : StateData) (mode freshUuid : String) :
    (buildCollaboratorLayout data mode freshUuid).uuid = freshUuid
    ∧ (∀ w d, w ∈ dockWidgets data → data.entries.lookup w = some d →
        (w, d) ∈ (buildCollaboratorLayout data mode freshUuid).openDocs)
    ∧ ∀ w d, (w, d) ∈ (buildCollaboratorLayout data mode freshUuid).openDocs →
        w ∈ dockWidgets data ∧ data.entries.lookup w = some d := by
  refine ⟨rfl, ?_, ?_⟩
  · intro w d hw hd
    have : (w, d) ∈ (dockWidgets data).filterMap
        fun w2 => (data.entries.lookup w2).map fun d2 => (w2, d2) :=
      List.mem_filterMap.2 ⟨w, hw, by simp [hd]⟩
    simpa [buildCollaboratorLayout] using this
  · intro w d hmem
    have hmem2 : (w, d) ∈ (dockWidgets data).filterMap
        fun w2 => (data.entries.lookup w2).map fun d2 => (w2, d2) := by
      simpa [buildCollaboratorLayout] using hmem
    rcases List.mem_filterMap.1 hmem2 with ⟨a, ha, hfa⟩
    rcases Option.map_eq_some'.1 hfa with ⟨d2, hd2, heq⟩
    cases heq
    exact ⟨ha, hd2⟩

/-- Claim C8, witness: with one dock widget carrying a record and one
without, the recorded widget is published with its metadata and the fresh
token is carried. -/
theorem C8_witness :
    (buildCollaboratorLayout sampleStateData "multiple-document" "u1").uuid = "u1"
    ∧ ("w1", sampleDoc) ∈
        (buildCollaboratorLayout sampleStateData "multiple-document" "u1").openDocs :=
  ⟨(C8_publisher sampleStateData "multiple-document" "u1").1,
   (C8_publisher sampleStateData "multiple-document" "u1").2.1 "w1" sampleDoc
     (by decide) (by decide)⟩

/-! Claim C10 helper lemmas on the split function. -/

/-- Splitting never yields an empty group list. -/
theorem splitAux_ne_nil (sep : Char) (l : List Char) : splitAux sep l ≠ [] := by
  cases l with
  | nil => simp [splitAux]
  | cons c cs =>
    simp only [splitAux]
    split
    · simp
    · split <;> simp

/-- Splitting a list without the separator yields that single group. -/
theorem splitAux_of_not_mem (sep : Char) (l : List Char) (h : sep ∉ l) :
    splitAux sep l = [l] := by
  induction l with
  | nil => rfl
  | cons c cs ih =>
    have hc : ¬ c = sep := by
      intro he
      exact h (by simp [he])
    have hcs : sep ∉ cs := fun hm => h (List.mem_cons_of_mem c hm)
    simp only [splitAux, if_neg hc, ih hcs]

/-- Splitting past a separator-free prefix peels off that prefix as the
first group. -/
theorem splitAux_append (sep : Char) (k rest : List Char) (h : sep ∉ k) :
    splitAux sep (k ++ sep :: rest) = k :: splitAux sep rest := by
  induction k with
  | nil => simp [splitAux]
  | cons c k2 ih =>
    have hc : ¬ c = sep := by
      intro he
      exact h (by simp [he])
    have hk : sep ∉ k2 := fun hm => h (List.mem_cons_of_mem c hm)
    simp only [List.cons_append, splitAux, List.append_eq, if_neg hc, ih hk]

/-! Claim C10. -/

/-- Claim C10: clicking a collaborator whose layout carries a nonempty
current locator opens index 1 of the colon-split of the locator: when the
locator has no colon the opened path is undefined; when it is a
colon-free viewer kind followed by a colon and a colon-free path, exactly
that path is opened; and when the path region itself contains a colon,
the opened path is truncated at it — the substring between the first and
second colon. -/
theorem C10_click_opens_second_segment :
    (∀ (v : ICollaboratorAwareness) (l : ICollaboratorLayout) (cs : List Char),
        v.layout = some l → l.current = ⟨cs⟩ → cs ≠ [] → ':' ∉ cs →
        clickOpenTarget v = some none)
    ∧ (∀ (v : ICollaboratorAwareness) (l : ICollaboratorLayout) (k p : List Char),
        v.layout = some l → l.current = ⟨k ++ ':' :: p⟩ → ':' ∉ k → ':' ∉ p →
        clickOpenTarget v = some (some ⟨p⟩))
    ∧ ∀ (v : ICollaboratorAwareness) (l : ICollaboratorLayout) (k p r : List Char),
        v.layout = some l → l.current = ⟨k ++ ':' :: (p ++ ':' :: r)⟩ →
        ':' ∉ k → ':' ∉ p →
        clickOpenTarget v = some (some ⟨p⟩) := by
  refine ⟨?_, ?_, ?_⟩
  · intro v l cs hv hcur hne hmem
    have hne2 : ¬ l.current = "" := by
      rw [hcur]
      intro h
      exact hne (congrArg String.data h)
    simp only [clickOpenTarget, hv, if_neg hne2]
    rw [hcur]
    simp only [jsSplit]
    rw [splitAux_of_not_mem ':' cs hmem]
    rfl
  · intro v l k p hv hcur hk hp
    have hne2 : ¬ l.current = "" := by
      rw [hcur]
      intro h
      have h2 : k ++ ':' :: p = [] := congrArg String.data h
      rcases List.append_eq_nil.1 h2 with ⟨-, h3⟩
      exact List.noConfusion h3
    simp only [clickOpenTarget, hv, if_neg hne2]
    rw [hcur]
    simp only [jsSplit]
    rw [splitAux_append ':' k p hk, splitAux_of_not_mem ':' p hp]
    rfl
  · intro v l k p r hv hcur hk hp
    have hne2 : ¬ l.current = "" := by
      rw [hcur]
      intro h
      have h2 : k ++ ':' :: (p ++ ':' :: r) = [] := congrArg String.data h
      rcases List.append_eq_nil.1 h2 with ⟨-, h3⟩
      exact List.noConfusion h3
    simp only [clickOpenTarget, hv, if_neg hne2]
    rw [hcur]
    simp only [jsSplit]
    rw [splitAux_append ':' k (p ++ ':' :: r) hk, splitAux_append ':' p r hp]
    rfl

/-- Claim C10, witness: a locator whose path region contains a colon is
truncated at that colon. -/
theorem C10_witness :
    clickOpenTarget
      ⟨some userB,
       some ⟨⟨"notebook".data ++ ':' :: ("dir".data ++ ':' :: "file.ipynb".data)⟩,
         none, "multiple-document", [], "u7"⟩⟩ = some (some "dir") :=
  C10_click_opens_second_segment.2.2 _ _ "notebook".data "dir".data "file.ipynb".data
    rfl rfl (by decide) (by decide)

end RTC
